import Mathlib

/-!
Verification of the event-counter encoder and the table-driven translations in
`src/codal_app/microbithal.cpp` (the Calliope mini v3 MicroPython HAL shim).

The shallow embedding below translates the shim's own logic into Lean:

* `counter_update`, `microbit_hal_pin_touch_state`, `microbit_hal_button_state`
  model the packed 16-bit "was triggered / trigger count" cells
  (`touch_state[]` / `button_state[]`).  A `Channel` carries the stored
  `uint16_t` cell together with the number of edges the device layer has
  accumulated since the last `wasTouched()` / `wasPressed()` call (that
  device-layer call is only made inside the `if (was_... != NULL || num_...
  != NULL)` block, so a poll that requests no output consumes no edges).
  The C output pointers become `Option Nat` results; the `int` return value
  (the instantaneous `isTouched()` / `isPressed()` boolean) is passed through
  as a `Bool` parameter.  Stores into the `uint16_t` cell truncate mod 2^16;
  `state &= ~1` on a 16-bit cell is `&&& 65534`.
* `microbit_hal_display_set_pixel` / `microbit_hal_display_get_pixel` model
  the 10-level brightness encode/decode (`__builtin_clz` is modelled as the
  ARM `CLZ` instruction the target compiles it to, with `CLZ 0 = 32`).
* `microbit_hal_pin_get_analog_period_us`, the log return-value collapse and
  `microbit_hal_display_rotate` model the sentinel / enum translations, with
  the device-layer result supplied as a parameter.
-/

namespace MicrobitHal

/-- Arithmetic form of setting the low bit: `x ||| 1 = 2 * (x / 2) + 1`. -/
theorem or_one_eq (x : Nat) : x ||| 1 = 2 * (x / 2) + 1 := by
  have h1 : (x ||| 1) / 2 = x / 2 := by
    rw [Nat.or_div_two]
    simp
  have h2 : (x ||| 1) % 2 = 1 := by
    rw [Nat.or_mod_two_eq_one]
    right
    rfl
  omega

/-- Arithmetic form of clearing the low bit of a 16-bit value:
`x &&& 0xFFFE = 2 * (x / 2 % 32768)`. -/
theorem and_mask_eq (x : Nat) : x &&& 65534 = 2 * (x / 2 % 32768) := by
  have h1 : (x &&& 65534) / 2 = x / 2 % 32768 := by
    have h2 := Nat.and_pow_two_sub_one_eq_mod (x / 2) 15
    norm_num at h2
    rw [Nat.and_div_two]
    norm_num
    exact h2
  have h3 : (x &&& 65534) % 2 = 1 ↔ x % 2 = 1 ∧ (65534 : Nat) % 2 = 1 :=
    Nat.and_mod_two_eq_one
  omega

/-- Absorb `t` freshly reported edges into a packed cell: the body of
`if (t) { state = (state + (t << 1)) | 1; }` with the `uint16_t` store
truncating mod 2^16. -/
def counter_update (state t : Nat) : Nat :=
  if 0 < t then ((state + (t <<< 1)) ||| 1) % 65536 else state

/-- Outputs of one poll call: the two optional `int *` outputs and the
function's `int` return value (instantaneous is-touched / is-pressed). -/
structure PollOutputs where
  was_active : Option Nat
  activation_count : Option Nat
  current : Bool
deriving DecidableEq, Repr

/-- One tracked input channel: the stored packed `uint16_t` cell and the
edge count pending in the device layer since the last `wasTouched()` /
`wasPressed()` call. -/
structure Channel where
  cell : Nat
  pending : Nat
deriving DecidableEq, Repr

/-- `microbit_hal_pin_touch_state` for one channel (the `pin_state_index`
lookup selects which `touch_state[]` cell `ch` is; the cell logic below is
the function body).  Requesting no output skips the whole block, leaving
both the cell and the device layer's pending edge count untouched. -/
def microbit_hal_pin_touch_state (ch : Channel) (want_touched want_num : Bool)
    (is_touched : Bool) : PollOutputs × Channel :=
  if want_touched || want_num then
    let t := ch.pending
    let state0 := counter_update ch.cell t
    let was := if want_touched then some (state0 &&& 1) else none
    let state1 := if want_touched then state0 &&& 65534 else state0
    let num := if want_num then some (state1 >>> 1) else none
    let state2 := if want_num then state1 &&& 1 else state1
    (⟨was, num, is_touched⟩, ⟨state2, 0⟩)
  else
    (⟨none, none, is_touched⟩, ch)

/-- `microbit_hal_button_state` for one channel: the C source is the same
algorithm line for line, on the separate `button_state[]` array. -/
def microbit_hal_button_state (ch : Channel) (want_pressed want_num : Bool)
    (is_pressed : Bool) : PollOutputs × Channel :=
  if want_pressed || want_num then
    let p := ch.pending
    let state0 := counter_update ch.cell p
    let was := if want_pressed then some (state0 &&& 1) else none
    let state1 := if want_pressed then state0 &&& 65534 else state0
    let num := if want_num then some (state1 >>> 1) else none
    let state2 := if want_num then state1 &&& 1 else state1
    (⟨was, num, is_pressed⟩, ⟨state2, 0⟩)
  else
    (⟨none, none, is_pressed⟩, ch)

/-- New edges delivered to the device layer between polls. -/
def channel_deliver (ch : Channel) (n : Nat) : Channel :=
  ⟨ch.cell, ch.pending + n⟩

/-- The two poll functions are the same transform. -/
theorem button_state_eq_touch_state :
    microbit_hal_button_state = microbit_hal_pin_touch_state := rfl

/-- Arithmetic evaluation of a poll requesting both outputs. -/
theorem touch_both_eval (ch : Channel) (act : Bool) :
    microbit_hal_pin_touch_state ch true true act =
      (⟨some (counter_update ch.cell ch.pending % 2),
        some (counter_update ch.cell ch.pending / 2 % 32768), act⟩, ⟨0, 0⟩) := by
  simp [microbit_hal_pin_touch_state, and_mask_eq, Nat.and_one_is_mod]
  omega

/-- Arithmetic evaluation of a poll requesting only the activation count. -/
theorem touch_count_eval (ch : Channel) (act : Bool) :
    microbit_hal_pin_touch_state ch false true act =
      (⟨none, some (counter_update ch.cell ch.pending / 2), act⟩,
        ⟨counter_update ch.cell ch.pending % 2, 0⟩) := by
  simp [microbit_hal_pin_touch_state, Nat.and_one_is_mod]
  omega

/-- Arithmetic evaluation of a poll requesting only the triggered flag. -/
theorem touch_flag_eval (ch : Channel) (act : Bool) :
    microbit_hal_pin_touch_state ch true false act =
      (⟨some (counter_update ch.cell ch.pending % 2), none, act⟩,
        ⟨2 * (counter_update ch.cell ch.pending / 2 % 32768), 0⟩) := by
  simp [microbit_hal_pin_touch_state, and_mask_eq, Nat.and_one_is_mod]

/-- A poll requesting neither output leaves the channel untouched. -/
theorem touch_none_eval (ch : Channel) (act : Bool) :
    microbit_hal_pin_touch_state ch false false act = (⟨none, none, act⟩, ch) := rfl

/-- Counter update from an all-clear cell, below the 15-bit count capacity. -/
theorem counter_update_zero (t : Nat) (h : 0 < t) (hb : t < 32768) :
    counter_update 0 t = 2 * t + 1 := by
  simp [counter_update, h, Nat.shiftLeft_eq, or_one_eq]
  omega

/-- Claim C1 (amended: the edge batch must fit the 15-bit count field,
`N < 32768`): polling an initially-zero cell with both outputs requested
after `N > 0` edges returns triggered = 1 and count = `N`, and leaves the
stored cell at 0, for both the touch-pin and the button variant. -/
theorem C1_poll_drains_fresh_cell (N : Nat) (h1 : 0 < N) (h2 : N < 32768) (act : Bool) :
    microbit_hal_pin_touch_state ⟨0, N⟩ true true act = (⟨some 1, some N, act⟩, ⟨0, 0⟩) ∧
    microbit_hal_button_state ⟨0, N⟩ true true act = (⟨some 1, some N, act⟩, ⟨0, 0⟩) := by
  have he := touch_both_eval ⟨0, N⟩ act
  rw [show (⟨0, N⟩ : Channel).cell = 0 from rfl, show (⟨0, N⟩ : Channel).pending = N from rfl,
    counter_update_zero N h1 h2] at he
  have hm : (2 * N + 1) % 2 = 1 := by omega
  have hd : (2 * N + 1) / 2 % 32768 = N := by omega
  rw [hm, hd] at he
  exact ⟨he, by rw [button_state_eq_touch_state]; exact he⟩

/-- Witness for C1 at `N = 5`. -/
theorem C1_witness :
    (0 : Nat) < 5 ∧ (5 : Nat) < 32768 ∧
    (microbit_hal_pin_touch_state ⟨0, 5⟩ true true true = (⟨some 1, some 5, true⟩, ⟨0, 0⟩) ∧
      microbit_hal_button_state ⟨0, 5⟩ true true true = (⟨some 1, some 5, true⟩, ⟨0, 0⟩)) :=
  ⟨by decide, by decide, C1_poll_drains_fresh_cell 5 (by decide) (by decide) true⟩

/-- Counterexample to C1 as frozen: at `N = 32768` the count field overflows
the 16-bit cell (`(0 + (32768 << 1)) | 1` truncates to 1), so the poll reports
an activation count of 0, not `N`. -/
theorem C1_cex_overflow :
    (microbit_hal_pin_touch_state ⟨0, 32768⟩ true true false).1.activation_count = some 0 ∧
    (microbit_hal_pin_touch_state ⟨0, 32768⟩ true true false).1.activation_count ≠
      some 32768 := by
  decide

/-- Claim C2 (amended: when the device layer reports zero new edges since the
last poll): a count-only poll leaves bit 0 of the 16-bit stored cell unchanged
and a flag-only poll leaves the count bits (bits 1..15) unchanged, for both
the touch-pin and the button variant. -/
theorem C2_partial_clears_independent (cell : Nat) (hcell : cell < 65536) (act : Bool) :
    ((microbit_hal_pin_touch_state ⟨cell, 0⟩ false true act).2.cell &&& 1 = cell &&& 1 ∧
      (microbit_hal_pin_touch_state ⟨cell, 0⟩ true false act).2.cell >>> 1 = cell >>> 1) ∧
    ((microbit_hal_button_state ⟨cell, 0⟩ false true act).2.cell &&& 1 = cell &&& 1 ∧
      (microbit_hal_button_state ⟨cell, 0⟩ true false act).2.cell >>> 1 = cell >>> 1) := by
  have hu : counter_update cell 0 = cell := by simp [counter_update]
  have hc := touch_count_eval ⟨cell, 0⟩ act
  have hf := touch_flag_eval ⟨cell, 0⟩ act
  rw [show (⟨cell, 0⟩ : Channel).cell = cell from rfl,
    show (⟨cell, 0⟩ : Channel).pending = 0 from rfl, hu] at hc hf
  have goal1 : (cell % 2) &&& 1 = cell &&& 1 := by
    simp [Nat.and_one_is_mod]
  have goal2 : (2 * (cell / 2 % 32768)) >>> 1 = cell >>> 1 := by
    omega
  rw [button_state_eq_touch_state, hc, hf]
  exact ⟨⟨goal1, goal2⟩, goal1, goal2⟩

/-- Witness for C2 at cell value 5 (flag set, count 2). -/
theorem C2_witness :
    (5 : Nat) < 65536 ∧
    (((microbit_hal_pin_touch_state ⟨5, 0⟩ false true false).2.cell &&& 1 = 5 &&& 1 ∧
      (microbit_hal_pin_touch_state ⟨5, 0⟩ true false false).2.cell >>> 1 = 5 >>> 1) ∧
     ((microbit_hal_button_state ⟨5, 0⟩ false true false).2.cell &&& 1 = 5 &&& 1 ∧
      (microbit_hal_button_state ⟨5, 0⟩ true false false).2.cell >>> 1 = 5 >>> 1)) :=
  ⟨by decide, C2_partial_clears_independent 5 (by decide) false⟩

/-- Counterexample to C2 as frozen: if one new edge arrives with the poll, a
count-only poll sets bit 0 of the stored cell (0 becomes 1), so the triggered
flag does not stay unchanged for every cell state. -/
theorem C2_cex_new_edge_sets_flag :
    (microbit_hal_pin_touch_state ⟨0, 1⟩ false true false).2.cell &&& 1 ≠ (0 : Nat) &&& 1 := by
  decide

/-- Claim C3: a poll that requests the triggered flag always clears it, so a
second flag-requesting poll with no intervening edge reads `false`; the claim's
true-then-false shape follows, for both the touch-pin and the button variant. -/
theorem C3_flag_read_self_clearing (ch : Channel) (wc wc2 : Bool) (act act2 : Bool)
    (h : (microbit_hal_pin_touch_state ch true wc act).1.was_active = some 1) :
    (microbit_hal_pin_touch_state (microbit_hal_pin_touch_state ch true wc act).2
        true wc2 act2).1.was_active = some 0 ∧
    (microbit_hal_button_state (microbit_hal_button_state ch true wc act).2
        true wc2 act2).1.was_active = some 0 := by
  have second : ∀ d : Channel, d.pending = 0 → d.cell % 2 = 0 → ∀ w2 : Bool, ∀ a2 : Bool,
      (microbit_hal_pin_touch_state d true w2 a2).1.was_active = some 0 := by
    intro d hp h0 w2 a2
    have hu : counter_update d.cell d.pending = d.cell := by simp [counter_update, hp]
    cases w2
    · rw [touch_flag_eval d a2]
      simp [hu, h0]
    · rw [touch_both_eval d a2]
      simp [hu, h0]
  have first2 : ((microbit_hal_pin_touch_state ch true wc act).2).pending = 0 ∧
      ((microbit_hal_pin_touch_state ch true wc act).2).cell % 2 = 0 := by
    cases wc
    · rw [touch_flag_eval ch act]
      simp
    · rw [touch_both_eval ch act]
      simp
  rw [button_state_eq_touch_state]
  exact ⟨second _ first2.1 first2.2 wc2 act2, second _ first2.1 first2.2 wc2 act2⟩

/-- Witness for C3: one edge pending, two flag-only polls. -/
theorem C3_witness :
    (microbit_hal_pin_touch_state ⟨0, 1⟩ true false false).1.was_active = some 1 ∧
    ((microbit_hal_pin_touch_state (microbit_hal_pin_touch_state ⟨0, 1⟩ true false false).2
        true false false).1.was_active = some 0 ∧
      (microbit_hal_button_state (microbit_hal_button_state ⟨0, 1⟩ true false false).2
        true false false).1.was_active = some 0) :=
  ⟨by decide, C3_flag_read_self_clearing ⟨0, 1⟩ false false false false (by decide)⟩

/-- Claim C4 (amended: the combined batch must fit the 15-bit count field,
`A + B < 32768`): two edge batches delivered around polls that request no
output (which absorb nothing) are both pending for the next counting poll,
which reports `A + B`, for both the touch-pin and the button variant. -/
theorem C4_batches_accumulate (A B : Nat) (hA : 0 < A) (hB : 0 < B)
    (hAB : A + B < 32768) (a1 a2 a3 : Bool) :
    (microbit_hal_pin_touch_state
        (channel_deliver
          (microbit_hal_pin_touch_state
            (channel_deliver (microbit_hal_pin_touch_state (channel_deliver ⟨0, 0⟩ A)
              false false a1).2 B)
            false false a2).2 0)
        false true a3).1.activation_count = some (A + B) ∧
    (microbit_hal_button_state
        (channel_deliver
          (microbit_hal_button_state
            (channel_deliver (microbit_hal_button_state (channel_deliver ⟨0, 0⟩ A)
              false false a1).2 B)
            false false a2).2 0)
        false true a3).1.activation_count = some (A + B) := by
  rw [button_state_eq_touch_state]
  rw [touch_none_eval, touch_none_eval]
  have hch : channel_deliver (channel_deliver (channel_deliver ⟨0, 0⟩ A) B) 0 =
      (⟨0, A + B⟩ : Channel) := by
    simp [channel_deliver]
  rw [hch, touch_count_eval ⟨0, A + B⟩ a3]
  have hu : counter_update 0 (A + B) = 2 * (A + B) + 1 :=
    counter_update_zero (A + B) (by omega) hAB
  rw [show (⟨0, A + B⟩ : Channel).cell = 0 from rfl,
    show (⟨0, A + B⟩ : Channel).pending = A + B from rfl, hu]
  have hd : (2 * (A + B) + 1) / 2 = A + B := by omega
  rw [hd]
  exact ⟨rfl, rfl⟩

/-- Witness for C4 at `A = 2`, `B = 3`. -/
theorem C4_witness :
    (0 : Nat) < 2 ∧ (0 : Nat) < 3 ∧ (2 : Nat) + 3 < 32768 ∧
    ((microbit_hal_pin_touch_state
        (channel_deliver
          (microbit_hal_pin_touch_state
            (channel_deliver (microbit_hal_pin_touch_state (channel_deliver ⟨0, 0⟩ 2)
              false false true).2 3)
            false false true).2 0)
        false true true).1.activation_count = some (2 + 3) ∧
     (microbit_hal_button_state
        (channel_deliver
          (microbit_hal_button_state
            (channel_deliver (microbit_hal_button_state (channel_deliver ⟨0, 0⟩ 2)
              false false true).2 3)
            false false true).2 0)
        false true true).1.activation_count = some (2 + 3)) :=
  ⟨by decide, by decide, by decide,
    C4_batches_accumulate 2 3 (by decide) (by decide) (by decide) true true true⟩

/-- Counterexample to C4 as frozen: with `A = B = 16384` the combined batch is
32768, the 16-bit cell overflows, and the counting poll reports 0, not
`A + B`. -/
theorem C4_cex_overflow :
    (microbit_hal_pin_touch_state
        (channel_deliver
          (microbit_hal_pin_touch_state
            (channel_deliver (microbit_hal_pin_touch_state (channel_deliver ⟨0, 0⟩ 16384)
              false false true).2 16384)
            false false true).2 0)
        false true true).1.activation_count = some 0 := by
  decide

/-- Claim C5: a poll with both output pointers null leaves the stored cell and
the device layer's pending edge count untouched (the whole counter block is
skipped, `wasTouched`/`wasPressed` is not called) and returns the
instantaneous `isTouched`/`isPressed` boolean. -/
theorem C5_null_null_poll_is_pure (ch : Channel) (act : Bool) :
    microbit_hal_pin_touch_state ch false false act = (⟨none, none, act⟩, ch) ∧
    microbit_hal_button_state ch false false act = (⟨none, none, act⟩, ch) :=
  ⟨rfl, rfl⟩

/-- The `bright_map[10]` table of `microbit_hal_display_set_pixel`. -/
def bright_map : List Nat := [0, 1, 2, 4, 8, 16, 32, 64, 128, 255]

/-- `microbit_hal_display_set_pixel`: clamp the level to 0..9 and write the
table entry as the raw intensity (returned here; the x/y coordinates do not
affect the mapping and are omitted). -/
def microbit_hal_display_set_pixel (bright : Int) : Nat :=
  bright_map.getD (if bright < 0 then (0 : Int) else if bright > 9 then 9 else bright).toNat 0

/-- Number of binary digits of `n`, computed with structural fuel
(`fuel ≥ 32` is exact for any 32-bit value). -/
def bitlenAux : Nat → Nat → Nat
  | _, 0 => 0
  | 0, _ + 1 => 0
  | fuel + 1, n + 1 => bitlenAux fuel ((n + 1) / 2) + 1

/-- `__builtin_clz` on a 32-bit value as the target's ARM `CLZ` instruction
computes it (in particular `CLZ 0 = 32`; `__builtin_clz(0)` is undefined in C
but this code is only built for ARM, where GCC emits `CLZ`). -/
def clz32 (x : Nat) : Nat := 32 - bitlenAux 32 x

/-- `microbit_hal_display_get_pixel`, with the raw intensity stored in the
device image passed as `pixel`. -/
def microbit_hal_display_get_pixel (pixel : Nat) : Nat :=
  if pixel = 255 then 9 else 32 - clz32 pixel

/-- Claim C6: negative levels clamp to raw 0, levels above 9 clamp to raw 255,
and each level 0..9 maps to its entry of `{0,1,2,4,8,16,32,64,128,255}`. -/
theorem C6_brightness_mapping (bright : Int) :
    (bright < 0 → microbit_hal_display_set_pixel bright = 0) ∧
    (bright > 9 → microbit_hal_display_set_pixel bright = 255) ∧
    (microbit_hal_display_set_pixel 0 = 0 ∧ microbit_hal_display_set_pixel 1 = 1 ∧
      microbit_hal_display_set_pixel 2 = 2 ∧ microbit_hal_display_set_pixel 3 = 4 ∧
      microbit_hal_display_set_pixel 4 = 8 ∧ microbit_hal_display_set_pixel 5 = 16 ∧
      microbit_hal_display_set_pixel 6 = 32 ∧ microbit_hal_display_set_pixel 7 = 64 ∧
      microbit_hal_display_set_pixel 8 = 128 ∧ microbit_hal_display_set_pixel 9 = 255) := by
  refine ⟨?_, ?_, by decide⟩
  · intro h
    simp only [microbit_hal_display_set_pixel]
    rw [if_pos h]
    rfl
  · intro h
    have h2 : ¬bright < 0 := by omega
    simp only [microbit_hal_display_set_pixel]
    rw [if_neg h2, if_pos h]
    rfl

/-- Witness for C6 at the out-of-range levels -3 and 12 and the top level 9. -/
theorem C6_witness :
    microbit_hal_display_set_pixel (-3) = 0 ∧
    microbit_hal_display_set_pixel 12 = 255 ∧
    microbit_hal_display_set_pixel 9 = 255 :=
  ⟨(C6_brightness_mapping (-3)).1 (by decide),
    (C6_brightness_mapping 12).2.1 (by decide),
    (C6_brightness_mapping 9).2.2.2.2.2.2.2.2.2.2.2⟩

/-- Claim C7: the decoder `32 - clz(raw)` (with raw 255 mapped to 9) is a left
inverse of the brightness table on the canonical levels 0..9. -/
theorem C7_brightness_roundtrip (L : Nat) (h : L ≤ 9) :
    microbit_hal_display_get_pixel (microbit_hal_display_set_pixel (L : Int)) = L := by
  interval_cases L <;> decide

/-- Witness for C7 at level 5. -/
theorem C7_witness :
    (5 : Nat) ≤ 9 ∧
    microbit_hal_display_get_pixel (microbit_hal_display_set_pixel ((5 : Nat) : Int)) = 5 :=
  ⟨by decide, C7_brightness_roundtrip 5 (by decide)⟩

/-- CODAL device-layer error codes consumed by the shim (external collaborator
constants from codal-core's ErrorNo.h). -/
def DEVICE_OK : Int := 0

/-- CODAL `DEVICE_NOT_SUPPORTED` error code. -/
def DEVICE_NOT_SUPPORTED : Int := -1002

/-- CODAL `DEVICE_NO_RESOURCES` error code. -/
def DEVICE_NO_RESOURCES : Int := -1005

/-- `microbit_hal_pin_get_analog_period_us`, with the device-layer result of
`NRF52Pin::getAnalogPeriodUs` (a non-negative period in microseconds, or
`DEVICE_NOT_SUPPORTED` when the pin is not in analog mode) passed as
`period`. -/
def microbit_hal_pin_get_analog_period_us (period : Int) : Int :=
  if period ≠ DEVICE_NOT_SUPPORTED then period else -1

/-- Claim C8: the function returns the sentinel -1 exactly when the device
layer reports `DEVICE_NOT_SUPPORTED`, and otherwise passes the period through
unchanged (no translation through the 3-value log taxonomy). -/
theorem C8_analog_period_sentinel (p : Int) (h : p = DEVICE_NOT_SUPPORTED ∨ 0 ≤ p) :
    (microbit_hal_pin_get_analog_period_us p = -1 ↔ p = DEVICE_NOT_SUPPORTED) ∧
    (p ≠ DEVICE_NOT_SUPPORTED → microbit_hal_pin_get_analog_period_us p = p) := by
  simp only [microbit_hal_pin_get_analog_period_us, DEVICE_NOT_SUPPORTED] at h ⊢
  by_cases hp : p = -1002
  · subst hp
    norm_num
  · rw [if_pos hp]
    constructor
    · omega
    · intro _
      rfl

/-- Witness for C8 at a pin that is not in analog mode. -/
theorem C8_witness :
    (microbit_hal_pin_get_analog_period_us DEVICE_NOT_SUPPORTED = -1 ↔
      DEVICE_NOT_SUPPORTED = DEVICE_NOT_SUPPORTED) ∧
    (DEVICE_NOT_SUPPORTED ≠ DEVICE_NOT_SUPPORTED →
      microbit_hal_pin_get_analog_period_us DEVICE_NOT_SUPPORTED = DEVICE_NOT_SUPPORTED) :=
  C8_analog_period_sentinel DEVICE_NOT_SUPPORTED (Or.inl rfl)

/-- Modelled from the spec: the HAL-side success code of the 3-value result
taxonomy declared in `microbithal.h`, a header of this repository that is not
among the given sources; the three codes are modelled as distinct integers. -/
def MICROBIT_HAL_DEVICE_OK : Int := 0

/-- Modelled from the spec: the HAL-side resource-exhausted code (see
`MICROBIT_HAL_DEVICE_OK`). -/
def MICROBIT_HAL_DEVICE_NO_RESOURCES : Int := 1

/-- Modelled from the spec: the HAL-side generic error code (see
`MICROBIT_HAL_DEVICE_OK`). -/
def MICROBIT_HAL_DEVICE_ERROR : Int := 2

/-- `microbit_hal_log_convert_return_value`. -/
def microbit_hal_log_convert_return_value (result : Int) : Int :=
  if result = DEVICE_OK then MICROBIT_HAL_DEVICE_OK
  else if result = DEVICE_NO_RESOURCES then MICROBIT_HAL_DEVICE_NO_RESOURCES
  else MICROBIT_HAL_DEVICE_ERROR

/-- `microbit_hal_log_begin_row`, with the device-layer result of
`uBit.log.beginRow()` passed as `device_result`. -/
def microbit_hal_log_begin_row (device_result : Int) : Int :=
  microbit_hal_log_convert_return_value device_result

/-- `microbit_hal_log_end_row`, with the device-layer result of
`uBit.log.endRow()` passed as `device_result`. -/
def microbit_hal_log_end_row (device_result : Int) : Int :=
  microbit_hal_log_convert_return_value device_result

/-- `microbit_hal_log_data`, with the device-layer result of
`uBit.log.logData(key, value)` passed as `device_result`. -/
def microbit_hal_log_data (device_result : Int) : Int :=
  microbit_hal_log_convert_return_value device_result

/-- Claim C9: every device-layer code collapses to one of exactly three HAL
codes, with `DEVICE_OK` mapped to success, `DEVICE_NO_RESOURCES` to
resource-exhausted and everything else to the generic error, identically for
the three log operations. -/
theorem C9_log_result_taxonomy (r : Int) :
    (microbit_hal_log_begin_row r = MICROBIT_HAL_DEVICE_OK ∨
      microbit_hal_log_begin_row r = MICROBIT_HAL_DEVICE_NO_RESOURCES ∨
      microbit_hal_log_begin_row r = MICROBIT_HAL_DEVICE_ERROR) ∧
    (microbit_hal_log_end_row r = microbit_hal_log_begin_row r ∧
      microbit_hal_log_data r = microbit_hal_log_begin_row r) ∧
    (r = DEVICE_OK → microbit_hal_log_begin_row r = MICROBIT_HAL_DEVICE_OK) ∧
    (r = DEVICE_NO_RESOURCES →
      microbit_hal_log_begin_row r = MICROBIT_HAL_DEVICE_NO_RESOURCES) ∧
    (r ≠ DEVICE_OK → r ≠ DEVICE_NO_RESOURCES →
      microbit_hal_log_begin_row r = MICROBIT_HAL_DEVICE_ERROR) := by
  simp only [microbit_hal_log_begin_row, microbit_hal_log_end_row, microbit_hal_log_data,
    microbit_hal_log_convert_return_value, DEVICE_OK, DEVICE_NO_RESOURCES,
    MICROBIT_HAL_DEVICE_OK, MICROBIT_HAL_DEVICE_NO_RESOURCES, MICROBIT_HAL_DEVICE_ERROR]
  by_cases h1 : r = 0
  · simp [h1]
  · by_cases h2 : r = -1005
    · simp [h1, h2]
    · simp [h1, h2]

/-- Witness for C9 at the device code -1013 (a generic device error). -/
theorem C9_witness :
    microbit_hal_log_begin_row (-1013) = MICROBIT_HAL_DEVICE_ERROR :=
  (C9_log_result_taxonomy (-1013)).2.2.2.2 (by decide) (by decide)

/-- The `angle_map[4]` table of `microbit_hal_display_rotate`, with the four
`DisplayRotation` enum values modelled as their angles in degrees. -/
def angle_map : List Nat := [0, 90, 180, 270]

/-- `microbit_hal_display_rotate`: the angle passed to `rotateTo`, selected by
`angle_map[rotation & 3]`. -/
def microbit_hal_display_rotate (rotation : Nat) : Nat :=
  angle_map.getD (rotation &&& 3) 0

/-- Claim C10: the table index `rotation & 3` is always below 4, and any
rotation argument selects the same angle as its value modulo 4. -/
theorem C10_rotate_mask_in_range (rotation : Nat) :
    rotation &&& 3 < 4 ∧
    microbit_hal_display_rotate rotation = microbit_hal_display_rotate (rotation % 4) := by
  have h3 : ∀ x : Nat, x &&& 3 = x % 4 := by
    intro x
    have h := Nat.and_pow_two_sub_one_eq_mod x 2
    norm_num at h
    exact h
  constructor
  · rw [h3]
    omega
  · simp only [microbit_hal_display_rotate, h3]
    congr 1
    omega

end MicrobitHal
